import Mathlib

/-!
Shallow embedding of the fraud-detection service
(`src/frauddetectionservice/fraud_detection_server.py`) and proofs about it.

Conventions of the embedding:

* Python `float` amounts and `time.time()` timestamps are modelled as `ℚ`
  (all arithmetic in the checks is exact on the values of interest).
* `datetime` values are modelled by `PyDateTime`: a year, a month, and a
  `rest : ℕ` encoding everything finer than the month (day, hour, ...) in a
  single lexicographic component, with `rest = 0` denoting the first moment
  of the month (day 1, 00:00:00), which is exactly what `datetime(y, m, 1)`
  constructs.  `datetime` comparison is lexicographic.
* The Gemini model attribute is modelled by `Option AssessorBehavior`:
  `none` when `GEMINI_API_KEY` is absent (`self.gemini_model is None`),
  `some .throws` when `generate_content` raises, and `some (.responds r)`
  when it returns, with `r : AIResponse` abstracting the response text by
  whether it contains a `"|"` separator, the `float(...)` parse result of
  its score field, and its reason field.
* An internal exception in the `CheckFraud` try-block (the spec's example is
  the amount decomposition on line 228, which runs before any state is
  touched) is modelled by the input constructor `EvalInput.raises`; a normal
  request is `EvalInput.ok req`.
-/

namespace FraudDetection

/-- Money protobuf message: `units`, `nanos`, `currency_code`. -/
structure Money where
  units : Int
  nanos : Int
  currency_code : String
deriving DecidableEq, Repr

/-- CreditCardInfo protobuf message (the cvv is never read by the service). -/
structure CreditCardInfo where
  credit_card_number : String
  credit_card_expiration_month : Int
  credit_card_expiration_year : Int
deriving DecidableEq, Repr

/-- FraudCheckRequest protobuf message, restricted to the fields read. -/
structure FraudCheckRequest where
  amount : Money
  credit_card : CreditCardInfo
  user_id : String
deriving DecidableEq, Repr

/-- FraudCheckResponse protobuf message. -/
structure FraudCheckResponse where
  is_fraud : Bool
  risk_score : ℚ
  reason : String
deriving DecidableEq, Repr

/-- Model of a Python `datetime`: year, month, and a single component `rest`
for everything finer than the month, `0` meaning day 1 at 00:00:00.
Comparison of datetimes is lexicographic on `(year, month, rest)`. -/
structure PyDateTime where
  year : Int
  month : Int
  rest : Nat
deriving DecidableEq, Repr

/-- The `<` comparison on Python `datetime`, lexicographic. -/
def dtLt (a b : PyDateTime) : Bool :=
  if a.year ≠ b.year then decide (a.year < b.year)
  else if a.month ≠ b.month then decide (a.month < b.month)
  else decide (a.rest < b.rest)

/-- Fraud-detection threshold set in `__init__`: `self.max_amount_threshold`. -/
def max_amount_threshold : ℚ := 10000

/-- Fraud-detection threshold set in `__init__`: `self.velocity_threshold`. -/
def velocity_threshold : Nat := 5

/-- Fraud-detection threshold set in `__init__`: `self.daily_limit`. -/
def daily_limit : ℚ := 50000

/-- Python's `re.sub(r'\D', '', s)`: keep only the digit characters. -/
def stripNonDigits (s : String) : List Char :=
  s.data.filter Char.isDigit

/-- Value of a digit character, Python's `int(d)`. -/
def digitVal (c : Char) : Nat := c.toNat - 48

/-- The doubling step of the Luhn algorithm: `d *= 2; if d > 9: d -= 9`. -/
def luhnDouble (d : Nat) : Nat :=
  if 2 * d > 9 then 2 * d - 9 else 2 * d

/-- Sum of the transformed digit list of `luhn_check`, where `n` is the total
number of digits and `i` the index of the head of the remaining list.  The
source loop `for i in range(len(digits) - 2, -1, -2)` doubles exactly the
indices `i` with `(n - i) % 2 = 0` (those of the form `n - 2, n - 4, ...`). -/
def luhnTransformSum (n : Nat) : Nat → List Nat → Nat
  | _, [] => 0
  | i, d :: t =>
      (if (n - i) % 2 = 0 then luhnDouble d else d) + luhnTransformSum n (i + 1) t

/-- The nested `luhn_check` of `_validate_credit_card`: transform the digits
and test the sum for divisibility by 10. -/
def luhn_check (digits : List Nat) : Bool :=
  luhnTransformSum digits.length 0 digits % 10 = 0

/-- The spec's wording of the Luhn checksum, processing digits from the
rightmost: position 1 (the rightmost) is kept, position 2 is doubled (with 9
subtracted when the double exceeds 9), alternating; the input here is the
digit list already reversed, rightmost first. -/
def luhnSpecSumRev : List Nat → Nat
  | [] => 0
  | [d] => d
  | d :: d2 :: rest => d + luhnDouble d2 + luhnSpecSumRev rest

/-- Spec-worded Luhn check: double every second digit counting from the
rightmost, subtract 9 from doubled values exceeding 9, sum, and test for a
multiple of 10. -/
def luhnSpec (digits : List Nat) : Bool :=
  luhnSpecSumRev digits.reverse % 10 = 0

/-- `_validate_credit_card(self, credit_card)`, a pure function of the card
and of `datetime.now()` (passed as `now`).  Returns `(valid, message)`. -/
def validateCreditCard (now : PyDateTime) (cc : CreditCardInfo) : Bool × String :=
  if cc.credit_card_number = "" then (false, "Missing credit card number")
  else
    let card_number := stripNonDigits cc.credit_card_number
    if card_number.length < 13 ∨ card_number.length > 19 then
      (false, "Invalid credit card number length")
    else if ¬ luhn_check (card_number.map digitVal) then
      (false, "Invalid credit card number")
    else
      let exp_month := cc.credit_card_expiration_month
      let exp_year := cc.credit_card_expiration_year
      if exp_month < 1 ∨ exp_month > 12 then (false, "Invalid expiration month")
      else if exp_year < 1 ∨ exp_year > 9999 then
        -- `datetime(exp_year, exp_month, 1)` raises `ValueError` for a year
        -- outside `[MINYEAR, MAXYEAR] = [1, 9999]`; the `except` clause turns
        -- this into the message below.
        (false, "Invalid expiration date")
      else if dtLt ⟨exp_year, exp_month, 0⟩ now then (false, "Credit card expired")
      else (true, "Valid")

/-- Python `f"{q:.2f}"` on the exact rational `q`, for the two-decimal values
the service formats (rounding ties do not arise on those). -/
def format2f (q : ℚ) : String :=
  let cents : Int := (q * 100 + 1 / 2).floor
  let ip := cents / 100
  let fp := cents % 100
  toString ip ++ "." ++ (if fp < 10 then "0" else "") ++ toString fp

/-- Message `f"Too many transactions: {n} in last minute"`. -/
def tooManyMsg (n : Nat) : String :=
  "Too many transactions: " ++ toString n ++ " in last minute"

/-- Message `f"Daily spending limit exceeded: ${s:.2f}"`. -/
def dailyMsg (s : ℚ) : String :=
  "Daily spending limit exceeded: $" ++ format2f s

/-- Message `f"Amount too high: ${a:.2f}"`. -/
def tooHighMsg (a : ℚ) : String :=
  "Amount too high: $" ++ format2f a

/-- Message `f"Suspicious amount pattern: ${a:.2f}"`. -/
def suspiciousPatternMsg (a : ℚ) : String :=
  "Suspicious amount pattern: $" ++ format2f a

/-- `_check_velocity_fraud(self, user_id, amount)` on the history list of the
given user, with `time.time()` passed as `now`.  Returns the `(is_fraud,
message)` pair together with the pruned history that the method wrote back
into `self.transaction_history[user_id]`. -/
def check_velocity_fraud (history : List (ℚ × ℚ)) (now amount : ℚ) :
    (Bool × String) × List (ℚ × ℚ) :=
  let pruned := history.filter (fun e => now - e.1 < 60)
  let recent_transactions := pruned.length
  if recent_transactions ≥ velocity_threshold then
    ((true, tooManyMsg recent_transactions), pruned)
  else
    let daily_cutoff := now - 24 * 3600
    let daily_spending :=
      ((pruned.filter (fun e => e.1 > daily_cutoff)).map Prod.snd).sum + amount
    if daily_spending > daily_limit then ((true, dailyMsg daily_spending), pruned)
    else ((false, "Velocity check passed"), pruned)

/-- `_check_amount_fraud(self, amount)`. -/
def check_amount_fraud (amount : ℚ) : Bool × String :=
  if amount ≤ 0 then (true, "Invalid amount")
  else if amount > max_amount_threshold then (true, tooHighMsg amount)
  else
    let suspicious_amounts : List ℚ := [9999.99, 5000.00, 1000.00]
    if amount ∈ suspicious_amounts then (true, suspiciousPatternMsg amount)
    else (false, "Amount check passed")

/-- Abstraction of a Gemini response text: whether it contains the `"|"`
separator, the result of `float(score_part)` (`none` when parsing raises
`ValueError`), and the extracted reason field. -/
structure AIResponse where
  hasPipe : Bool
  scoreField : Option ℚ
  reasonField : String
deriving DecidableEq, Repr

/-- Behaviour of `self.gemini_model.generate_content` on the call the service
makes: it either raises, or returns a response. -/
inductive AssessorBehavior where
  | throws
  | responds (r : AIResponse)
deriving DecidableEq, Repr

/-- `_get_ai_fraud_assessment(self, transaction_data)`: `model` is
`self.gemini_model` (`none` when no API key was configured). -/
def get_ai_fraud_assessment (model : Option AssessorBehavior) : ℚ × String :=
  match model with
  | none => (0, "AI assessment not available")
  | some .throws => (0, "AI assessment failed")
  | some (.responds r) =>
      if r.hasPipe then
        match r.scoreField with
        | some score => (min (max score 0) 1, r.reasonField)
        | none => (0.2, "AI assessment completed")
      else (0.2, "AI assessment completed")

/-- Mutable service state: the per-user transaction history
(`self.transaction_history`, a defaultdict of `(timestamp, amount)` lists)
and the configured assessor (`self.gemini_model`). -/
structure ServiceState where
  transaction_history : String → List (ℚ × ℚ)
  gemini_model : Option AssessorBehavior

/-- Input of one `CheckFraud` call: either a request whose processing runs
normally, or one on which the try-block raises an internal exception before
any state is touched (the spec's example: malformed amount decomposition). -/
inductive EvalInput where
  | raises
  | ok (req : FraudCheckRequest)

/-- The transaction amount reconstructed on line 228:
`float(request.amount.units + request.amount.nanos / 1e9)`. -/
def requestAmount (req : FraudCheckRequest) : ℚ :=
  (req.amount.units : ℚ) + (req.amount.nanos : ℚ) / 1000000000

/-- `CheckFraud(self, request, context)`.  `now` is `time.time()` and `nd` is
`datetime.now()` during the call.  Returns the response together with the
updated service state. -/
def CheckFraud (st : ServiceState) (now : ℚ) (nd : PyDateTime) (input : EvalInput) :
    FraudCheckResponse × ServiceState :=
  match input with
  | .raises =>
      ({ is_fraud := true, risk_score := 1,
         reason := "System error - transaction blocked for safety" }, st)
  | .ok req =>
      let amount := requestAmount req
      let user_id := req.user_id
      let card := validateCreditCard nd req.credit_card
      let amt := check_amount_fraud amount
      let vel := check_velocity_fraud (st.transaction_history user_id) now amount
      let fraud_reasons :=
        (if card.1 then [] else [card.2]) ++
        (if amt.1 then [amt.2] else []) ++
        (if vel.1.1 then [vel.1.2] else [])
      let preScore : ℚ :=
        (if card.1 then 0 else 0.8) + (if amt.1 then 0.6 else 0) +
        (if vel.1.1 then 0.7 else 0)
      let ai := get_ai_fraud_assessment st.gemini_model
      let risk_score := min (preScore + ai.1 * 0.3) 1
      let is_fraud : Bool := decide (risk_score > 0.7) || decide (fraud_reasons ≠ [])
      let newHist := if is_fraud then vel.2 else vel.2 ++ [(now, amount)]
      let st' : ServiceState :=
        { st with transaction_history :=
            fun v => if v = user_id then newHist else st.transaction_history v }
      ({ is_fraud := is_fraud, risk_score := risk_score,
         reason := if fraud_reasons ≠ [] then String.intercalate "; " fraud_reasons
                   else ai.2 }, st')

/-! ### Helper lemmas: the two Luhn formulations agree -/

/-- Alternating Luhn digit sum over a digit list: the head is doubled exactly
when `b` is true, and the flag alternates along the list. -/
def altSum : Bool → List Nat → Nat
  | _, [] => 0
  | b, d :: t => (if b then luhnDouble d else d) + altSum (!b) t

theorem luhnTransformSum_eq_altSum (l : List Nat) : ∀ n i, i + l.length ≤ n →
    luhnTransformSum n i l = altSum (decide ((n - i) % 2 = 0)) l := by
  induction l with
  | nil => intro n i _; rfl
  | cons d t ih =>
      intro n i h
      simp only [List.length_cons] at h
      have h1 : i + 1 + t.length ≤ n := by omega
      simp only [luhnTransformSum, altSum, ih n (i + 1) h1]
      by_cases hp : (n - i) % 2 = 0
      · have hp' : ¬ (n - (i + 1)) % 2 = 0 := by omega
        simp [hp, hp']
      · have hp' : (n - (i + 1)) % 2 = 0 := by omega
        simp [hp, hp']

theorem luhnSpecSumRev_eq_altSum : ∀ m, luhnSpecSumRev m = altSum false m
  | [] => rfl
  | [d] => by simp [luhnSpecSumRev, altSum]
  | d :: d2 :: rest => by
      simp [luhnSpecSumRev, altSum, luhnSpecSumRev_eq_altSum rest]
      omega

theorem altSum_append (ys : List Nat) : ∀ xs b,
    altSum b (xs ++ ys) = altSum b xs +
      altSum (if xs.length % 2 = 0 then b else !b) ys := by
  intro xs
  induction xs with
  | nil => intro b; simp [altSum]
  | cons x t ih =>
      intro b
      simp only [List.cons_append, altSum, List.length_cons, List.append_eq]
      rw [ih (!b)]
      by_cases ht : t.length % 2 = 0
      · have ht' : ¬ (t.length + 1) % 2 = 0 := by omega
        simp [ht, ht', Bool.not_not]
        omega
      · have ht' : (t.length + 1) % 2 = 0 := by omega
        simp [ht, ht']
        omega

theorem altSum_reverse (l : List Nat) :
    altSum false l.reverse = altSum (decide (l.length % 2 = 0)) l := by
  induction l with
  | nil => rfl
  | cons d t ih =>
      simp only [List.reverse_cons, List.length_cons]
      rw [altSum_append [d] t.reverse, ih]
      simp only [List.length_reverse, altSum]
      by_cases ht : t.length % 2 = 0
      · have ht' : ¬ (t.length + 1) % 2 = 0 := by omega
        simp [ht, ht']
        omega
      · have ht' : (t.length + 1) % 2 = 0 := by omega
        simp [ht, ht']
        omega

/-- The source's `luhn_check` computes exactly the spec's rightmost-first
Luhn checksum. -/
theorem luhn_check_eq_luhnSpec (digits : List Nat) :
    luhn_check digits = luhnSpec digits := by
  unfold luhn_check luhnSpec
  rw [luhnTransformSum_eq_altSum digits digits.length 0 (by omega),
    luhnSpecSumRev_eq_altSum, altSum_reverse]
  simp

/-! ### Helper lemmas about the evaluation pipeline -/

theorem check_velocity_fraud_snd (h : List (ℚ × ℚ)) (now a : ℚ) :
    (check_velocity_fraud h now a).2 = h.filter (fun e => now - e.1 < 60) := by
  simp only [check_velocity_fraud]
  split_ifs <;> rfl

theorem get_ai_bounds (m : Option AssessorBehavior) :
    0 ≤ (get_ai_fraud_assessment m).1 ∧ (get_ai_fraud_assessment m).1 ≤ 1 := by
  rcases m with _ | b
  · norm_num [get_ai_fraud_assessment]
  · rcases b with _ | r
    · norm_num [get_ai_fraud_assessment]
    · simp only [get_ai_fraud_assessment]
      cases hp : r.hasPipe
      · norm_num
      · cases hs : r.scoreField with
        | none => norm_num
        | some s =>
            simp only [if_true]
            exact ⟨le_min (le_max_right s 0) zero_le_one, min_le_right _ _⟩

theorem ite_append_aux {α : Type} (c : Prop) [Decidable c] (F y : List α) :
    (if c then F else F ++ y) = F ++ (if c then [] else y) := by
  split <;> simp

/-! ### Claim theorems -/

/-- C1: the spec (and the repository's own unit test
`test_velocity_fraud_daily_limit_exceeded`) requires the tracker to retain
events up to the 24-hour horizon so that the daily-spend window is computed
correctly, but `_check_velocity_fraud` prunes the whole history to the
60-second window first.  On the test's own input — one prior event of 40000
recorded 500 seconds before `now`, with 15000 proposed — the event is still
inside the 24-hour window and the true daily sum 55000 exceeds the 50000
limit, yet the code prunes it (500 ≥ 60) and reports the check as passed. -/
theorem C1_prune_discards_daily_window_event :
    check_velocity_fraud [(500, 40000)] 1000 15000
      = ((false, "Velocity check passed"), [])
    ∧ (1000 : ℚ) - 500 ≥ 60
    ∧ (500 : ℚ) > 1000 - 24 * 3600
    ∧ (40000 : ℚ) + 15000 > daily_limit := by
  refine ⟨?_, by norm_num, by norm_num, by norm_num [daily_limit]⟩
  norm_num [check_velocity_fraud, velocity_threshold, daily_limit, List.filter]

/-- C2 counterexample: on the fail-closed path the reason string returned by
`CheckFraud` is "System error - transaction blocked for safety", not the
claimed "system error - transaction blocked for safety". -/
theorem C2_reason_capitalization :
    (CheckFraud ⟨fun _ => [], none⟩ 0 ⟨2024, 1, 0⟩ .raises).1.reason
      ≠ "system error - transaction blocked for safety" := by
  decide

/-- C2 (amended): when the evaluate pipeline raises an internal exception,
`CheckFraud` returns exactly `is_fraud = true`, `risk_score = 1.0`,
`reason = "System error - transaction blocked for safety"`, and the service
state — in particular every user's transaction history — is unchanged. -/
theorem C2_fail_closed (st : ServiceState) (now : ℚ) (nd : PyDateTime) :
    CheckFraud st now nd .raises =
      ({ is_fraud := true, risk_score := 1,
         reason := "System error - transaction blocked for safety" }, st) := rfl

/-- C3: on every normal return, the user's history after the call is the
60-second-pruned history with exactly one event `(now, amount)` appended when
the decision is not fraud and with nothing appended when it is fraud, and no
other user's history changes; hence a transaction is recorded if and only if
the final decision is not fraud. -/
theorem C3_record_iff_not_fraud (st : ServiceState) (now : ℚ) (nd : PyDateTime)
    (req : FraudCheckRequest) :
    ((CheckFraud st now nd (.ok req)).2.transaction_history req.user_id
      = ((st.transaction_history req.user_id).filter (fun e => now - e.1 < 60))
        ++ (if (CheckFraud st now nd (.ok req)).1.is_fraud then []
            else [(now, requestAmount req)]))
    ∧ ∀ v, v ≠ req.user_id →
        (CheckFraud st now nd (.ok req)).2.transaction_history v
          = st.transaction_history v := by
  have h2 := check_velocity_fraud_snd (st.transaction_history req.user_id) now
    (requestAmount req)
  constructor
  · simp only [CheckFraud, h2]
    simp only [↓reduceIte]
    rw [ite_append_aux]
  · intro v hv
    simp only [CheckFraud]
    simp [hv]

/-- C3 witness: a call for user "alice" on the empty state leaves the history
of the unrelated user "bob" unchanged. -/
theorem C3_record_iff_not_fraud_witness :
    (CheckFraud ⟨fun _ => [], none⟩ 0 ⟨2024, 1, 0⟩
        (.ok ⟨⟨100, 0, "USD"⟩, ⟨"4532015112830366", 12, 2025⟩, "alice"⟩)
      ).2.transaction_history "bob" = ([] : List (ℚ × ℚ)) :=
  (C3_record_iff_not_fraud ⟨fun _ => [], none⟩ 0 ⟨2024, 1, 0⟩
      ⟨⟨100, 0, "USD"⟩, ⟨"4532015112830366", 12, 2025⟩, "alice"⟩).2 "bob" (by decide)

/-- C4: on every normal return, the decision is fraud exactly when the
clamped risk score strictly exceeds 0.7 or at least one of the card, amount
or velocity checks produced a reason; any single rule violation therefore
forces `is_fraud = true` regardless of the AI score, and with no rule reasons
present only a clamped score above 0.7 blocks. -/
theorem C4_decision_rule (st : ServiceState) (now : ℚ) (nd : PyDateTime)
    (req : FraudCheckRequest) :
    ((CheckFraud st now nd (.ok req)).1.is_fraud = true
      ↔ ((0.7 : ℚ) < (CheckFraud st now nd (.ok req)).1.risk_score
          ∨ (validateCreditCard nd req.credit_card).1 = false
          ∨ (check_amount_fraud (requestAmount req)).1 = true
          ∨ (check_velocity_fraud (st.transaction_history req.user_id) now
              (requestAmount req)).1.1 = true)) := by
  cases hc : (validateCreditCard nd req.credit_card).1 <;>
    cases ha : (check_amount_fraud (requestAmount req)).1 <;>
      cases hv : (check_velocity_fraud (st.transaction_history req.user_id) now
          (requestAmount req)).1.1 <;>
    simp [CheckFraud, hc, ha, hv]

/-- C5 counterexample: a Luhn-valid, length-valid card that expires in the
current month (expiration month 6 of 2024, evaluated with `datetime.now()`
inside June 2024 but past its first moment) is rejected as expired, because
`_validate_credit_card` compares the first moment of the expiration month
strictly against the current instant. -/
theorem C5_current_month_rejected :
    luhn_check ((stripNonDigits "4532015112830366").map digitVal) = true
    ∧ 13 ≤ (stripNonDigits "4532015112830366").length
    ∧ (stripNonDigits "4532015112830366").length ≤ 19
    ∧ validateCreditCard ⟨2024, 6, 5⟩ ⟨"4532015112830366", 6, 2024⟩
        = (false, "Credit card expired") := by
  decide

/-- C5 (amended): for every card passing the Luhn and length checks and whose
expiration month is in [1,12] and year in [1,9999], validation fails with
reason "Credit card expired" exactly when the expiration instant — the first
moment of the given month/year — is strictly before the current time, and
succeeds (reason "Valid") otherwise; in particular a card expiring in the
current month is rejected except at the exact first moment of that month. -/
theorem C5_expiry_iff (now : PyDateTime) (cc : CreditCardInfo)
    (hlen1 : 13 ≤ (stripNonDigits cc.credit_card_number).length)
    (hlen2 : (stripNonDigits cc.credit_card_number).length ≤ 19)
    (hluhn : luhn_check ((stripNonDigits cc.credit_card_number).map digitVal) = true)
    (hm1 : 1 ≤ cc.credit_card_expiration_month)
    (hm2 : cc.credit_card_expiration_month ≤ 12)
    (hy1 : 1 ≤ cc.credit_card_expiration_year)
    (hy2 : cc.credit_card_expiration_year ≤ 9999) :
    (validateCreditCard now cc = (false, "Credit card expired")
      ↔ dtLt ⟨cc.credit_card_expiration_year, cc.credit_card_expiration_month, 0⟩ now
          = true)
    ∧ (dtLt ⟨cc.credit_card_expiration_year, cc.credit_card_expiration_month, 0⟩ now
          = false
        → validateCreditCard now cc = (true, "Valid")) := by
  have hne : cc.credit_card_number ≠ "" := by
    intro h
    rw [h] at hlen1
    exact absurd hlen1 (by decide)
  have hlen : ¬ ((stripNonDigits cc.credit_card_number).length < 13
      ∨ (stripNonDigits cc.credit_card_number).length > 19) := by omega
  have hm : ¬ (cc.credit_card_expiration_month < 1
      ∨ cc.credit_card_expiration_month > 12) := by omega
  have hy : ¬ (cc.credit_card_expiration_year < 1
      ∨ cc.credit_card_expiration_year > 9999) := by omega
  simp only [validateCreditCard, if_neg hne, if_neg hlen,
    if_neg (not_not_intro hluhn), not_true, if_neg hm, if_neg hy, if_false]
  by_cases hd : dtLt ⟨cc.credit_card_expiration_year,
      cc.credit_card_expiration_month, 0⟩ now = true
  · simp [hd]
  · simp [hd]

/-- C5 witness: a card expiring in a strictly future month is valid. -/
theorem C5_expiry_iff_witness :
    validateCreditCard ⟨2024, 6, 5⟩ ⟨"4532015112830366", 12, 2025⟩ = (true, "Valid") :=
  (C5_expiry_iff ⟨2024, 6, 5⟩ ⟨"4532015112830366", 12, 2025⟩ (by decide) (by decide)
    (by decide) (by decide) (by decide) (by decide) (by decide)).2 (by decide)

/-- C6: validation works on the digit-stripped card number; it fails whenever
the stripped length is outside [13,19], and with the length in range it fails
the number check (result `(false, "Invalid credit card number")`) exactly
when the spec's standard rightmost-first Luhn checksum (`luhnSpec`, proved
equal to the source's index-based `luhn_check` in `luhn_check_eq_luhnSpec`)
does not hold for the stripped digit string. -/
theorem C6_luhn_refinement (now : PyDateTime) (cc : CreditCardInfo) :
    ((stripNonDigits cc.credit_card_number).length < 13
        ∨ (stripNonDigits cc.credit_card_number).length > 19 →
      (validateCreditCard now cc).1 = false)
    ∧ (13 ≤ (stripNonDigits cc.credit_card_number).length →
       (stripNonDigits cc.credit_card_number).length ≤ 19 →
       (validateCreditCard now cc = (false, "Invalid credit card number")
         ↔ luhnSpec ((stripNonDigits cc.credit_card_number).map digitVal) = false)) := by
  constructor
  · intro hlen
    by_cases hne : cc.credit_card_number = ""
    · simp [validateCreditCard, hne]
    · simp [validateCreditCard, hne, hlen]
  · intro hlen1 hlen2
    have hne : cc.credit_card_number ≠ "" := by
      intro h
      rw [h] at hlen1
      exact absurd hlen1 (by decide)
    have hlen : ¬ ((stripNonDigits cc.credit_card_number).length < 13
        ∨ (stripNonDigits cc.credit_card_number).length > 19) := by omega
    rw [← luhn_check_eq_luhnSpec]
    by_cases hl : luhn_check ((stripNonDigits cc.credit_card_number).map digitVal) = true
    · simp only [validateCreditCard, if_neg hne, if_neg hlen,
        if_neg (not_not_intro hl), hl]
      constructor
      · intro h
        split_ifs at h <;> simp_all
      · intro h
        exact absurd h (by simp)
    · simp only [validateCreditCard, if_neg hne, if_neg hlen,
        Bool.not_eq_true] at hl ⊢
      simp [hl]

/-- C6 witness: a 16-digit number failing the Luhn checksum fails the number
check. -/
theorem C6_luhn_refinement_witness :
    validateCreditCard ⟨2024, 6, 5⟩ ⟨"1234567890123456", 12, 2025⟩
      = (false, "Invalid credit card number") :=
  ((C6_luhn_refinement ⟨2024, 6, 5⟩ ⟨"1234567890123456", 12, 2025⟩).2 (by decide)
    (by decide)).mpr (by decide)

/-- C7 counterexample: for the non-positive amount −100 the code's reason is
"Invalid amount", not the claimed "invalid amount" (on the other suspicious
branches the reasons also carry a formatted dollar amount suffix). -/
theorem C7_reason_capitalization :
    check_amount_fraud (-100) = (true, "Invalid amount")
    ∧ "Invalid amount" ≠ "invalid amount" := by
  refine ⟨by norm_num [check_amount_fraud], by decide⟩

/-- C7 (amended): the amount heuristic is suspicious with reason
"Invalid amount" when the amount is non-positive; otherwise suspicious with
reason `"Amount too high: $"` plus the two-decimal amount when the amount is
strictly greater than the 10000 ceiling; otherwise suspicious with reason
`"Suspicious amount pattern: $"` plus the two-decimal amount exactly when the
amount equals one of the literals 9999.99, 5000.00, 1000.00 (exact match);
and not suspicious (reason "Amount check passed") in every other case. -/
theorem C7_amount_rules (a : ℚ) :
    (a ≤ 0 → check_amount_fraud a = (true, "Invalid amount"))
    ∧ (max_amount_threshold < a → check_amount_fraud a = (true, tooHighMsg a))
    ∧ (0 < a → a ≤ max_amount_threshold →
        ((a = 9999.99 ∨ a = 5000.00 ∨ a = 1000.00 →
            check_amount_fraud a = (true, suspiciousPatternMsg a))
         ∧ (¬ (a = 9999.99 ∨ a = 5000.00 ∨ a = 1000.00) →
            check_amount_fraud a = (false, "Amount check passed")))) := by
  have hthr : (0 : ℚ) < max_amount_threshold := by norm_num [max_amount_threshold]
  refine ⟨?_, ?_, ?_⟩
  · intro h; simp [check_amount_fraud, h]
  · intro h
    have h0 : ¬ a ≤ 0 := by
      push_neg
      exact lt_trans hthr h
    simp [check_amount_fraud, h0, h]
  · intro h0 h1
    have h0' : ¬ a ≤ 0 := not_le.mpr h0
    have h1' : ¬ a > max_amount_threshold := not_lt.mpr h1
    constructor
    · intro hm
      simp [check_amount_fraud, h0', h1', hm]
    · intro hm
      simp [check_amount_fraud, h0', h1']
      push_neg at hm
      exact hm

/-- C7 witness: the amended branch behaviour at the concrete amounts 15000
(over the ceiling) and 9999.99 (a decoy literal). -/
theorem C7_amount_rules_witness :
    check_amount_fraud 15000 = (true, tooHighMsg 15000)
    ∧ check_amount_fraud 9999.99 = (true, suspiciousPatternMsg 9999.99) :=
  ⟨(C7_amount_rules 15000).2.1 (by norm_num [max_amount_threshold]),
   ((C7_amount_rules 9999.99).2.2 (by norm_num)
      (by norm_num [max_amount_threshold])).1 (Or.inl rfl)⟩

/-- C8: on every normal return, the risk score is the sum of the triggered
rule weights (0.8 card, 0.6 amount, 0.7 velocity) plus the AI score times
0.3, clamped by `min` so it never exceeds 1.0, and it is never below 0.0
because every contribution is non-negative. -/
theorem C8_risk_score_clamped (st : ServiceState) (now : ℚ) (nd : PyDateTime)
    (req : FraudCheckRequest) :
    (CheckFraud st now nd (.ok req)).1.risk_score
      = min (((if (validateCreditCard nd req.credit_card).1 then 0 else 0.8)
            + (if (check_amount_fraud (requestAmount req)).1 then 0.6 else 0)
            + (if (check_velocity_fraud (st.transaction_history req.user_id) now
                  (requestAmount req)).1.1 then 0.7 else 0))
          + (get_ai_fraud_assessment st.gemini_model).1 * 0.3) 1
    ∧ 0 ≤ (CheckFraud st now nd (.ok req)).1.risk_score
    ∧ (CheckFraud st now nd (.ok req)).1.risk_score ≤ 1 := by
  have hai := get_ai_bounds st.gemini_model
  have e1 : (0 : ℚ) ≤ (if (validateCreditCard nd req.credit_card).1 then 0 else 0.8) := by
    split_ifs <;> norm_num
  have e2 : (0 : ℚ) ≤ (if (check_amount_fraud (requestAmount req)).1 then 0.6 else 0) := by
    split_ifs <;> norm_num
  have e3 : (0 : ℚ) ≤ (if (check_velocity_fraud (st.transaction_history req.user_id) now
      (requestAmount req)).1.1 then 0.7 else 0) := by
    split_ifs <;> norm_num
  refine ⟨by simp only [CheckFraud], ?_, ?_⟩
  · simp only [CheckFraud]
    exact le_min (add_nonneg (add_nonneg (add_nonneg e1 e2) e3)
      (mul_nonneg hai.1 (by norm_num))) zero_le_one
  · simp only [CheckFraud]
    exact min_le_right _ _

/-- C9: when the external assessor is absent its contribution is
`(0.0, "AI assessment not available")`, and when its invocation throws its
contribution is `(0.0, "AI assessment failed")`; in both cases the overall
evaluation continues normally — the returned risk score is the clamped
rule-only sum, and when nothing else is flagged the AI fallback reason is
what the caller sees — instead of aborting. -/
theorem C9_assessor_failure_absorbed (st : ServiceState) (now : ℚ) (nd : PyDateTime)
    (req : FraudCheckRequest)
    (h : st.gemini_model = none ∨ st.gemini_model = some .throws) :
    get_ai_fraud_assessment none = (0, "AI assessment not available")
    ∧ get_ai_fraud_assessment (some .throws) = (0, "AI assessment failed")
    ∧ (get_ai_fraud_assessment st.gemini_model).1 = 0
    ∧ (CheckFraud st now nd (.ok req)).1.risk_score
        = min ((if (validateCreditCard nd req.credit_card).1 then 0 else 0.8)
             + (if (check_amount_fraud (requestAmount req)).1 then 0.6 else 0)
             + (if (check_velocity_fraud (st.transaction_history req.user_id) now
                   (requestAmount req)).1.1 then 0.7 else 0)) 1
    ∧ ((CheckFraud st now nd (.ok req)).1.is_fraud = false →
        (CheckFraud st now nd (.ok req)).1.reason
          = (get_ai_fraud_assessment st.gemini_model).2) := by
  have hz : (get_ai_fraud_assessment st.gemini_model).1 = 0 := by
    rcases h with h | h <;> simp [h, get_ai_fraud_assessment]
  refine ⟨rfl, rfl, hz, ?_, ?_⟩
  · simp [CheckFraud, hz]
  · intro hf
    cases hc : (validateCreditCard nd req.credit_card).1 <;>
      cases ha : (check_amount_fraud (requestAmount req)).1 <;>
        cases hv : (check_velocity_fraud (st.transaction_history req.user_id) now
            (requestAmount req)).1.1 <;>
      simp [CheckFraud, hc, ha, hv] at hf ⊢

/-- C9 witness: a concrete state with no assessor configured. -/
theorem C9_assessor_failure_absorbed_witness :
    get_ai_fraud_assessment none = (0, "AI assessment not available") :=
  (C9_assessor_failure_absorbed ⟨fun _ => [], none⟩ 0 ⟨2024, 1, 0⟩
      ⟨⟨100, 0, "USD"⟩, ⟨"4532015112830366", 12, 2025⟩, "test-user"⟩ (Or.inl rfl)).1

/-- C10: a response text from the external assessor that returns successfully
but has no "|" separator, or whose score field does not parse as a number,
contributes the fixed score 0.2 with reason "AI assessment completed" — a
contribution different from the zero ones used for unavailability and for
failure. -/
theorem C10_unparseable_response (r : AIResponse)
    (h : r.hasPipe = false ∨ r.scoreField = none) :
    get_ai_fraud_assessment (some (.responds r)) = (0.2, "AI assessment completed")
    ∧ get_ai_fraud_assessment (some (.responds r)) ≠ get_ai_fraud_assessment none
    ∧ get_ai_fraud_assessment (some (.responds r))
        ≠ get_ai_fraud_assessment (some .throws) := by
  have h1 : get_ai_fraud_assessment (some (.responds r))
      = (0.2, "AI assessment completed") := by
    rcases h with h | h
    · simp [get_ai_fraud_assessment, h]
    · cases hp : r.hasPipe <;> simp [get_ai_fraud_assessment, hp, h]
  refine ⟨h1, ?_, ?_⟩ <;> rw [h1] <;> intro hEq <;>
    (have h2 := congrArg Prod.fst hEq; norm_num [get_ai_fraud_assessment] at h2)

/-- C10 witness: a concrete response with a separator but a non-numeric
score field. -/
theorem C10_unparseable_response_witness :
    get_ai_fraud_assessment (some (.responds ⟨true, none, "text"⟩))
      = (0.2, "AI assessment completed") :=
  (C10_unparseable_response ⟨true, none, "text"⟩ (Or.inr rfl)).1

end FraudDetection
